import Mathlib

/-!
Shallow embedding of the crytobot repository (two Python scripts:
`crypto-trading-signals.py` and `main.py`) for checking the natural-language
specification against the code.

Modelling conventions:
* Python floats are modelled as rationals (ℚ).  IEEE NaN is modelled as
  `none` in `Option ℚ`; every ordered comparison against NaN is false in
  Python, which the helpers below reproduce.  Float arithmetic on NaN
  yields NaN, modelled by `Option.bind`-style propagation.
* `datetime` values are modelled as integer timestamps in seconds.
* Library calls (TA-Lib, Selenium, requests) are modelled by their
  documented input/output behaviour; in particular TA-Lib pads the start
  of every output series with NaN over the indicator lookback, so the most
  recent value of a series computed from a window shorter than
  `lookback + 1` is NaN (`none`).
-/

set_option autoImplicit false

namespace Crytobot

/-- Ordered comparison `a > b` on floats that may be NaN (`none`):
in Python any comparison involving NaN is `False`. -/
def nanGt (a b : Option ℚ) : Bool :=
  match a, b with
  | some x, some y => decide (x > y)
  | _, _ => false

/-- Ordered comparison `a < b` on floats that may be NaN (`none`). -/
def nanLt (a b : Option ℚ) : Bool :=
  match a, b with
  | some x, some y => decide (x < y)
  | _, _ => false

/-- NaN-propagating addition: any operation on NaN yields NaN. -/
def nanAdd (a b : Option ℚ) : Option ℚ :=
  match a, b with
  | some x, some y => some (x + y)
  | _, _ => none

/-- NaN-propagating subtraction. -/
def nanSub (a b : Option ℚ) : Option ℚ :=
  match a, b with
  | some x, some y => some (x - y)
  | _, _ => none

/-- NaN-propagating multiplication by a finite constant (`2 * atr`). -/
def nanScale (c : ℚ) (a : Option ℚ) : Option ℚ :=
  match a with
  | some x => some (c * x)
  | none => none

/-- One OHLCV candle (`get_binance_data` row).  Only the fields read by
`MarketAnalyzer` are modelled (`open` and the timestamps are never read by
the analysis code). -/
structure Candle where
  high : ℚ
  low : ℚ
  close : ℚ
  volume : ℚ
  deriving Repr, DecidableEq

/-- The indicator mapping built by `MarketAnalyzer.calculate_indicators`:
the most recent value of each computed series (`indicators[...][-1]`),
`none` standing for NaN. -/
structure IndicatorSet where
  EMA_short : Option ℚ
  EMA_medium : Option ℚ
  EMA_long : Option ℚ
  RSI : Option ℚ
  MACD : Option ℚ
  MACD_signal : Option ℚ
  BB_upper : Option ℚ
  BB_middle : Option ℚ
  BB_lower : Option ℚ
  ATR : Option ℚ
  deriving Repr, DecidableEq

/-- The `TradingSignal` dataclass.  `stop_loss` and `take_profit` are
`Option ℚ` because they are computed from the ATR value, which can be NaN.
The wall-clock `timestamp` field (set from `datetime.now()`) carries no
information used by any modelled code and is omitted. -/
structure TradingSignal where
  symbol : String
  price : ℚ
  entry : ℚ
  stop_loss : Option ℚ
  take_profit : Option ℚ
  signal_type : String
  confidence : ℚ
  indicators : List (String × Option ℚ)
  deriving Repr, DecidableEq

/-- Simple average of the first `period` entries, the seed TA-Lib uses for
its EMA and Wilder-smoothed series. -/
def smaSeed (period : Nat) (xs : List ℚ) : ℚ :=
  (xs.take period).sum / (period : ℚ)

/-- One step of exponential smoothing with multiplier `k`. -/
def emaStep (k : ℚ) (e x : ℚ) : ℚ :=
  k * x + (1 - k) * e

/-- The defined (non-NaN) tail of `talib.EMA(xs, period)`: TA-Lib emits the
first value (seeded by the simple average of the first `period` inputs,
multiplier `2/(period+1)`) at index `period - 1` and NaN before it; an
input shorter than `period` yields an all-NaN series, here `[]`. -/
def emaSeries (period : Nat) (xs : List ℚ) : List ℚ :=
  if xs.length < period then []
  else (xs.drop period).scanl (emaStep (2 / ((period : ℚ) + 1))) (smaSeed period xs)

/-- Most recent value of `talib.EMA(xs, period)`; `none` is NaN. -/
def emaLast (period : Nat) (xs : List ℚ) : Option ℚ :=
  (emaSeries period xs).getLast?

/-- Most recent value of a Wilder-smoothed series over `xs` (seed = simple
average of the first `period` entries, then `a ← (a·(period−1) + x)/period`);
`none` when fewer than `period` inputs exist (TA-Lib NaN padding). -/
def wilderLast (period : Nat) (xs : List ℚ) : Option ℚ :=
  if xs.length < period then none
  else some ((xs.drop period).foldl
    (fun a x => (a * ((period : ℚ) - 1) + x) / (period : ℚ)) (smaSeed period xs))

/-- Consecutive close-to-close differences, the input to RSI. -/
def rsiDiffs (xs : List ℚ) : List ℚ :=
  List.zipWith (fun a b => b - a) xs (xs.drop 1)

/-- Most recent value of `talib.RSI(xs, 14)`: Wilder-smoothed average gain
and average loss over the differences, scaled to 0–100
(`100·gain/(gain+loss)`, 0 when both vanish); NaN (`none`) unless at least
15 closes are available (lookback 14). -/
def rsiLast (xs : List ℚ) : Option ℚ :=
  let ds := rsiDiffs xs
  match wilderLast 14 (ds.map (fun d => max d 0)),
      wilderLast 14 (ds.map (fun d => max (-d) 0)) with
  | some g, some l => some (if g + l = 0 then 0 else 100 * g / (g + l))
  | _, _ => none

/-- The MACD line series `EMA(12) − EMA(26)` over the prefixes where the
slow EMA is defined (spec §4.2 formula; TA-Lib computes the same lines). -/
def macdSeries (xs : List ℚ) : List ℚ :=
  List.zipWith (fun a b => a - b) ((emaSeries 12 xs).drop 14) (emaSeries 26 xs)

/-- Most recent value of the MACD line output of `talib.MACD(xs)`:
TA-Lib aligns all three MACD outputs to the signal line, padding the first
`26 − 1 + 9 − 1 = 33` entries with NaN, so the series is all-NaN for inputs
shorter than 34. -/
def macdLast (xs : List ℚ) : Option ℚ :=
  if xs.length < 34 then none else (macdSeries xs).getLast?

/-- Most recent value of the MACD signal line, `EMA(9)` of the MACD line
series; NaN (`none`) for inputs shorter than 34. -/
def macdSignalLast (xs : List ℚ) : Option ℚ :=
  emaLast 9 (macdSeries xs)

/-- True range of a candle given its predecessor
(`max(high−low, |high−prevClose|, |low−prevClose|)`). -/
def trueRange (prev cur : Candle) : ℚ :=
  max (cur.high - cur.low) (max |cur.high - prev.close| |cur.low - prev.close|)

/-- Most recent value of `talib.ATR(high, low, close)` with its default
period 14: a Wilder-smoothed average of the true ranges; NaN (`none`)
unless at least 15 candles are available. -/
def atrLast (cs : List Candle) : Option ℚ :=
  wilderLast 14 (List.zipWith trueRange cs (cs.drop 1))

/-- Simple moving average over the trailing `period` entries; `none` when
fewer than `period` inputs exist. -/
def smaLast (period : Nat) (xs : List ℚ) : Option ℚ :=
  if xs.length < period then none
  else some ((xs.drop (xs.length - period)).sum / (period : ℚ))

/-- Environment abstracting the one TA-Lib quantity that is irrational in
general: the standard deviation of the trailing five closes, used only
inside the Bollinger Bands (`talib.BBANDS` defaults: period 5, 2 standard
deviations).  No claim refers to the numeric value of a band, so it is kept
as a parameter; every theorem below holds for all instantiations. -/
structure TalibEnv where
  stdDev5 : List ℚ → ℚ

/-- Most recent upper Bollinger Band: 5-period SMA + 2 standard deviations;
NaN (`none`) for inputs shorter than 5. -/
def bbUpperLast (env : TalibEnv) (xs : List ℚ) : Option ℚ :=
  match smaLast 5 xs with
  | some m => some (m + 2 * env.stdDev5 xs)
  | none => none

/-- Most recent lower Bollinger Band: 5-period SMA − 2 standard deviations. -/
def bbLowerLast (env : TalibEnv) (xs : List ℚ) : Option ℚ :=
  match smaLast 5 xs with
  | some m => some (m - 2 * env.stdDev5 xs)
  | none => none

/-- `MarketAnalyzer.calculate_indicators`: builds the indicator dictionary
from a candle window.  The source returns the empty dict `{}` only when a
computation raises (modelled `none`); the TA-Lib calls it makes do not
raise on short windows — they return NaN-padded series — so the modelled
pure path always returns a populated mapping (`some`), with `none` fields
standing for NaN most-recent values. -/
def calculate_indicators (env : TalibEnv) (cs : List Candle) :
    Option IndicatorSet :=
  let close := cs.map Candle.close
  some
    { EMA_short := emaLast 9 close
      EMA_medium := emaLast 21 close
      EMA_long := emaLast 50 close
      RSI := rsiLast close
      MACD := macdLast close
      MACD_signal := macdSignalLast close
      BB_upper := bbUpperLast env close
      BB_middle := smaLast 5 close
      BB_lower := bbLowerLast env close
      ATR := atrLast cs }

/-- An `IndicatorSet` is complete when every most-recent value is finite
(no NaN entries). -/
def IndicatorSet.complete (s : IndicatorSet) : Bool :=
  s.EMA_short.isSome && s.EMA_medium.isSome && s.EMA_long.isSome &&
  s.RSI.isSome && s.MACD.isSome && s.MACD_signal.isSome &&
  s.BB_upper.isSome && s.BB_middle.isSome && s.BB_lower.isSome &&
  s.ATR.isSome

/-- `MarketAnalyzer.RSI_OVERSOLD`. -/
def RSI_OVERSOLD : ℚ := 30

/-- `MarketAnalyzer.RSI_OVERBOUGHT`. -/
def RSI_OVERBOUGHT : ℚ := 70

/-- `MarketAnalyzer.analyze_market`.  The data frame arguments
`df['close'].iloc[-1]` and `df['symbol'].iloc[0]` are passed in directly as
`current_price` and `symbol`; the indicator dictionary is `none` when the
source returned the empty dict `{}` (the `if not indicators` guard). -/
def analyze_market (symbol : String) (current_price : ℚ)
    (ind : Option IndicatorSet) : Option TradingSignal :=
  match ind with
  | none => none
  | some i =>
    if nanGt i.EMA_short i.EMA_medium &&
        nanLt i.RSI (some RSI_OVERBOUGHT) &&
        nanGt i.MACD i.MACD_signal then
      some
        { symbol := symbol
          price := current_price
          entry := current_price
          stop_loss := nanSub (some current_price) (nanScale 2 i.ATR)
          take_profit := nanAdd (some current_price) (nanScale 3 i.ATR)
          signal_type := "LONG"
          confidence := 8 / 10
          indicators :=
            [("RSI", i.RSI), ("MACD", i.MACD),
             ("BB_upper", i.BB_upper), ("BB_lower", i.BB_lower)] }
    else if nanLt i.EMA_short i.EMA_medium &&
        nanGt i.RSI (some RSI_OVERSOLD) &&
        nanLt i.MACD i.MACD_signal then
      some
        { symbol := symbol
          price := current_price
          entry := current_price
          stop_loss := nanAdd (some current_price) (nanScale 2 i.ATR)
          take_profit := nanSub (some current_price) (nanScale 3 i.ATR)
          signal_type := "SHORT"
          confidence := 8 / 10
          indicators :=
            [("RSI", i.RSI), ("MACD", i.MACD),
             ("BB_upper", i.BB_upper), ("BB_lower", i.BB_lower)] }
    else
      none

/-- `TradingNotifier.MIN_NOTIFICATION_INTERVAL` (seconds). -/
def MIN_NOTIFICATION_INTERVAL : ℤ := 300

/-- `TradingNotifier._can_send_notification`.  `last` models the
`last_notification` dict (symbol ↦ last-sent timestamp in seconds, most
recent binding first) and `now` models `datetime.now()`. -/
def can_send_notification (last : List (String × ℤ)) (symbol : String)
    (now : ℤ) : Bool :=
  match last.lookup symbol with
  | none => true
  | some t => decide (now - t ≥ MIN_NOTIFICATION_INTERVAL)

/-- The dict assignment `self.last_notification[signal.symbol] = now`. -/
def recordNotification (last : List (String × ℤ)) (symbol : String)
    (now : ℤ) : List (String × ℤ) :=
  (symbol, now) :: last.eraseP (fun p => p.1 == symbol)

/-- `TradingNotifier.send_signal`: if the cooldown check passes, the
message is dispatched through the bot (`sendOk` models the outcome of
`bot.send_message`, which has its own internal retries) and the
`last_notification` entry is updated only on success.  Returns the
method's boolean result together with the updated map. -/
def send_signal (last : List (String × ℤ)) (signal : TradingSignal)
    (now : ℤ) (sendOk : Bool) : Bool × List (String × ℤ) :=
  if can_send_notification last signal.symbol now then
    if sendOk then (true, recordNotification last signal.symbol now)
    else (false, last)
  else (false, last)

/-- The `MarketState` dataclass, restricted to the fields
`process_market_data` sets; the remaining dataclass defaults
(`highest_price`, `lowest_price`, `volume_profile`, `entry_triggered`,
`is_active`) keep their initial values and are never read. `start_time`
is the creation instant (`datetime.now()`), in seconds. -/
structure MarketState where
  symbol : String
  start_time : ℤ
  current_price : ℚ
  entry_points : List ℚ
  stop_loss : Option ℚ
  take_profit : Option ℚ
  signal_type : String
  deriving Repr, DecidableEq

/-- The `MarketState` entry `process_market_data` builds from a signal. -/
def stateOfSignal (signal : TradingSignal) (now : ℤ) : MarketState :=
  { symbol := signal.symbol
    start_time := now
    current_price := signal.price
    entry_points := [signal.entry]
    stop_loss := signal.stop_loss
    take_profit := signal.take_profit
    signal_type := signal.signal_type }

/-- `CryptoMonitor.process_market_data`.  The fetch/analysis chain
`get_binance_data` → `calculate_indicators` → `analyze_market` is passed
in as `signal` (`none` both when the fetch fails — the early return — and
when the analyzer produces no signal; in either case the guarded body is
skipped).  Returns the updated `monitored_pairs` map and whether the
signal was forwarded to `notifier.send_signal`. -/
def process_market_data (monitored_pairs : List (String × MarketState))
    (symbol : String) (signal : Option TradingSignal) (now : ℤ) :
    List (String × MarketState) × Bool :=
  match signal with
  | some s =>
    if s.confidence > 6 / 10 then
      (if (monitored_pairs.lookup symbol).isNone then
        (symbol, stateOfSignal s now) :: monitored_pairs
      else monitored_pairs, true)
    else (monitored_pairs, false)
  | none => (monitored_pairs, false)

/-- Loop body of `CryptoMonitor.check_market_updates`
(crypto-trading-signals.py) for one scraped table row, given as the list
of its td-cell texts.  `parseInt` models the Python `int()` conversion
(`none` when it raises).  Rows with at least two cells have
`symbol = cols[0] + "USDT"` and `pings = int(cols[1])`;
`process_market_data` is called exactly when `pings >= 4`; the `none`
result models the `int()` exception aborting the cycle (caught by the
outer `except`, logged and re-raised). -/
def checkMarketStep (parseInt : String → Option ℤ) (acc : List String)
    (cols : List String) : Option (List String) :=
  if 2 ≤ cols.length then
    match (cols.get? 1).bind parseInt with
    | some pings =>
      if 4 ≤ pings then some (acc ++ [cols.headD "" ++ "USDT"])
      else some acc
    | none => none
  else some acc

/-- `CryptoMonitor.check_market_updates`: folds `checkMarketStep` over
the scraped rows and returns the symbols handed to
`process_market_data`, in order, or `none` if the cycle aborted. -/
def check_market_updates (parseInt : String → Option ℤ)
    (rows : List (List String)) : Option (List String) :=
  rows.foldlM (checkMarketStep parseInt) []

/-- The symbol contributed by one scraped row: `some symbol` exactly when
the row has at least two cells, its ping cell parses, and the ping count
is at least 4. -/
def rowProcessed (parseInt : String → Option ℤ) (cols : List String) :
    Option String :=
  if 2 ≤ cols.length then
    match (cols.get? 1).bind parseInt with
    | some pings =>
      if 4 ≤ pings then some (cols.headD "" ++ "USDT") else none
    | none => none
  else none

/-- One parsed feed row of the main.py monitor (the `coin_data` dict).
The volumetric fields never influence the dedup decision but are carried
for fidelity to the parsed record. -/
structure FeedRow where
  coin : String
  pings : ℤ
  net_vol_btc : ℚ
  net_vol_percent : ℚ
  recent_total_vol_btc : ℚ
  recent_vol_percent : ℚ
  recent_net_vol : ℚ
  timestamp : String
  deriving Repr, DecidableEq

/-- The dedup key of a feed row: the f-string `coin + "_" + timestamp`. -/
def entryKey (r : FeedRow) : String :=
  r.coin ++ "_" ++ r.timestamp

/-- `CryptoMonitor.check_updates` (main.py): one polling cycle of the
dedup-based monitor.  `last_processed` is the previous cycle's key set and
`rows` the current table, a `none` entry being a row whose parsing raised
(fewer than 8 cells, or a failed numeric conversion) and was skipped by
the inner `except ... continue`.  Each parsed row's key is added to
`current_entries` before the send is attempted; `sendOk` gives the
outcome of each attempted `send_telegram_message`, a return value the
source ignores.  Returns the new `last_processed` — a pure replacement by
the current cycle's keys — and the rows for which a notification was
attempted, with the attempt's outcome, in order.
`checkUpdatesStep` is the loop body for a single table row;
`check_updates` folds it over the whole table starting from an empty
`current_entries` and an empty send log. -/
def checkUpdatesStep (last_processed : Finset String)
    (sendOk : FeedRow → Bool)
    (acc : Finset String × List (FeedRow × Bool)) (row : Option FeedRow) :
    Finset String × List (FeedRow × Bool) :=
  match row with
  | none => acc
  | some r =>
    let cur := insert (entryKey r) acc.1
    if entryKey r ∈ last_processed then (cur, acc.2)
    else (cur, acc.2 ++ [(r, sendOk r)])

def check_updates (last_processed : Finset String)
    (rows : List (Option FeedRow)) (sendOk : FeedRow → Bool) :
    Finset String × List (FeedRow × Bool) :=
  rows.foldl (checkUpdatesStep last_processed sendOk) (∅, [])

/-- The rows of a cycle that parse successfully. -/
def parsedRows (rows : List (Option FeedRow)) : List FeedRow :=
  rows.filterMap id

/-- The dedup-key set of the current cycle's parsed rows. -/
def cycleKeys (rows : List (Option FeedRow)) : Finset String :=
  ((parsedRows rows).map entryKey).toFinset

/-- The parsed rows classified as new against a previous key set. -/
def newRows (prev : Finset String) (rows : List (Option FeedRow)) :
    List FeedRow :=
  (parsedRows rows).filter (fun r => decide (entryKey r ∉ prev))

/-- Outcome of one pass through the reconnection logic of
`CryptoMonitor.run` (main.py): either a backoff sleep followed by a retry,
or termination of the monitor. -/
inductive SupervisorStep where
  | sleepThenRetry (seconds : Nat)
  | terminated
  deriving Repr, DecidableEq

/-- The failure branch of `CryptoMonitor.run` (main.py): after an
exception in the main loop, `retry_count` (the number of consecutive
failures before this one) is incremented; with `max_retries = 5`, if the
new count is still below 5 the loop sleeps `min(300, 60 * retry_count)`
seconds and retries, otherwise it logs "máximo de tentativas excedido"
and breaks out of the supervisor loop.  (The separate
`initialize_driver`-failure branch sleeps a constant 60 s and is governed
by the same counter and the `while retry_count < max_retries` guard.) -/
def reconnectStep (retry_count : Nat) : SupervisorStep :=
  let c := retry_count + 1
  if c < 5 then SupervisorStep.sleepThenRetry (min 300 (60 * c))
  else SupervisorStep.terminated

/-- Cumulative outcome of `n` consecutive main-loop failures starting
from a freshly reset counter: the backoff sleeps performed, and whether
the supervisor loop has terminated. -/
def reconnectTrace : Nat → List Nat × Bool
  | 0 => ([], false)
  | n + 1 =>
    let t := reconnectTrace n
    if t.2 then t
    else
      match reconnectStep n with
      | SupervisorStep.sleepThenRetry s => (t.1 ++ [s], false)
      | SupervisorStep.terminated => (t.1, true)

@[simp]
theorem nanGt_some_some (x y : ℚ) : nanGt (some x) (some y) = decide (x > y) :=
  rfl

@[simp]
theorem nanLt_some_some (x y : ℚ) : nanLt (some x) (some y) = decide (x < y) :=
  rfl

@[simp]
theorem nanAdd_some_some (x y : ℚ) : nanAdd (some x) (some y) = some (x + y) :=
  rfl

@[simp]
theorem nanSub_some_some (x y : ℚ) : nanSub (some x) (some y) = some (x - y) :=
  rfl

@[simp]
theorem nanScale_some (c x : ℚ) : nanScale c (some x) = some (c * x) :=
  rfl

@[simp]
theorem nanGt_none_right (a : Option ℚ) : nanGt a none = false := by
  cases a <;> rfl

@[simp]
theorem nanLt_none_right (a : Option ℚ) : nanLt a none = false := by
  cases a <;> rfl

/-- C1: for a candle window whose decision-relevant indicator values are
all finite, `analyze_market` yields a LONG signal exactly when
`EMA_short > EMA_medium` and `RSI < 70` and `MACD > MACD_signal`;
otherwise a SHORT signal exactly when `EMA_short < EMA_medium` and
`RSI > 30` and `MACD < MACD_signal`; and no signal when neither rule
matches (rules checked in this order, first match wins). -/
theorem C1_signal_rules (symbol : String) (price : ℚ) (i : IndicatorSet)
    (es em r m ms : ℚ)
    (h1 : i.EMA_short = some es) (h2 : i.EMA_medium = some em)
    (h3 : i.RSI = some r) (h4 : i.MACD = some m)
    (h5 : i.MACD_signal = some ms) :
    ((analyze_market symbol price (some i)).map TradingSignal.signal_type
        = some "LONG" ↔ es > em ∧ r < RSI_OVERBOUGHT ∧ m > ms) ∧
    ((analyze_market symbol price (some i)).map TradingSignal.signal_type
        = some "SHORT" ↔
      ¬(es > em ∧ r < RSI_OVERBOUGHT ∧ m > ms) ∧
        (es < em ∧ r > RSI_OVERSOLD ∧ m < ms)) ∧
    (analyze_market symbol price (some i) = none ↔
      ¬(es > em ∧ r < RSI_OVERBOUGHT ∧ m > ms) ∧
        ¬(es < em ∧ r > RSI_OVERSOLD ∧ m < ms)) := by
  simp only [analyze_market, h1, h2, h3, h4, h5, nanGt_some_some,
    nanLt_some_some]
  split_ifs with hl hs <;>
    simp_all [Option.map_some, Option.map_none, decide_eq_true_eq]

/-- Witness for C1 at a concrete complete indicator set. -/
theorem C1_signal_rules_witness :
    ((analyze_market "BTCUSDT" 100
        (some ⟨some 105, some 100, some 99, some 45, some (6 / 5), some 1,
          some 0, some 0, some 0, some 2⟩)).map TradingSignal.signal_type
      = some "LONG" ↔
      (105 : ℚ) > 100 ∧ (45 : ℚ) < RSI_OVERBOUGHT ∧ (6 / 5 : ℚ) > 1) :=
  (C1_signal_rules "BTCUSDT" 100
    ⟨some 105, some 100, some 99, some 45, some (6 / 5), some 1,
      some 0, some 0, some 0, some 2⟩
    105 100 45 (6 / 5) 1 rfl rfl rfl rfl rfl).1

/-- C2: every generated LONG signal has
`stopLoss = price − 2·ATR` and `takeProfit = price + 3·ATR`, every SHORT
signal has `stopLoss = price + 2·ATR` and `takeProfit = price − 3·ATR`;
and in the concrete scenario `EMA_short=105 > EMA_medium=100`, `RSI=45`,
`MACD=1.2 > MACD_signal=1.0`, `ATR=2.0`, `price=100` the analyzer emits a
LONG signal with `stopLoss=96` and `takeProfit=106`. -/
theorem C2_signal_levels (symbol : String) (price : ℚ) (i : IndicatorSet)
    (a : ℚ) (ha : i.ATR = some a) (sig : TradingSignal)
    (hs : analyze_market symbol price (some i) = some sig) :
    (sig.signal_type = "LONG" →
      sig.stop_loss = some (price - 2 * a) ∧
        sig.take_profit = some (price + 3 * a)) ∧
    (sig.signal_type = "SHORT" →
      sig.stop_loss = some (price + 2 * a) ∧
        sig.take_profit = some (price - 3 * a)) ∧
    (analyze_market "BTCUSDT" 100
        (some ⟨some 105, some 100, some 100, some 45, some (6 / 5), some 1,
          some 0, some 0, some 0, some 2⟩)).map
        (fun s => (s.signal_type, s.stop_loss, s.take_profit)) =
      some ("LONG", some 96, some 106) := by
  have hscen : (analyze_market "BTCUSDT" 100
      (some ⟨some 105, some 100, some 100, some 45, some (6 / 5), some 1,
        some 0, some 0, some 0, some 2⟩)).map
      (fun s => (s.signal_type, s.stop_loss, s.take_profit)) =
      some ("LONG", some 96, some 106) := by
    have hcond : (nanGt (some (105 : ℚ)) (some 100) &&
        nanLt (some (45 : ℚ)) (some RSI_OVERBOUGHT) &&
        nanGt (some ((6 : ℚ) / 5)) (some 1)) = true := by
      simp only [nanGt_some_some, nanLt_some_some, RSI_OVERBOUGHT]
      norm_num
    simp only [analyze_market]
    rw [if_pos hcond]
    simp only [Option.map_some, nanScale_some, nanSub_some_some,
      nanAdd_some_some]
    norm_num
  refine ⟨?_, ?_, hscen⟩
  · intro hty
    simp only [analyze_market] at hs
    split_ifs at hs
    · injection hs with hs
      subst hs
      constructor <;> simp [ha]
    · injection hs with hs
      subst hs
      have hty2 : ("SHORT" : String) = "LONG" := hty
      exact absurd hty2 (by decide)
  · intro hty
    simp only [analyze_market] at hs
    split_ifs at hs
    · injection hs with hs
      subst hs
      have hty2 : ("LONG" : String) = "SHORT" := hty
      exact absurd hty2 (by decide)
    · injection hs with hs
      subst hs
      constructor <;> simp [ha]

/-- Witness for C2 at the scenario inputs of the claim. -/
theorem C2_signal_levels_witness :
    (⟨some 105, some 100, some 100, some 45, some (6 / 5), some 1,
        some 0, some 0, some 0, some 2⟩ : IndicatorSet).ATR = some 2 ∧
    ((analyze_market "BTCUSDT" 100
        (some ⟨some 105, some 100, some 100, some 45, some (6 / 5), some 1,
          some 0, some 0, some 0, some 2⟩)).map
        (fun s => (s.signal_type, s.stop_loss, s.take_profit)) =
      some ("LONG", some 96, some 106)) := by
  refine ⟨rfl, ?_⟩
  have h := C2_signal_levels "BTCUSDT" 100
    ⟨some 105, some 100, some 100, some 45, some (6 / 5), some 1,
      some 0, some 0, some 0, some 2⟩ 2 rfl
    { symbol := "BTCUSDT", price := 100, entry := 100,
      stop_loss := some 96, take_profit := some 106,
      signal_type := "LONG", confidence := 8 / 10,
      indicators := [("RSI", some 45), ("MACD", some (6 / 5)),
        ("BB_upper", some 0), ("BB_lower", some 0)] }
    (by
      have hcond : (nanGt (some (105 : ℚ)) (some 100) &&
          nanLt (some (45 : ℚ)) (some RSI_OVERBOUGHT) &&
          nanGt (some ((6 : ℚ) / 5)) (some 1)) = true := by
        simp only [nanGt_some_some, nanLt_some_some, RSI_OVERBOUGHT]
        norm_num
      simp only [analyze_market]
      rw [if_pos hcond]
      simp only [nanScale_some, nanSub_some_some, nanAdd_some_some]
      norm_num)
  exact h.2.2

/-- C3: the notifier allows a send exactly when the symbol is absent from
`last_notification` or at least `MIN_NOTIFICATION_INTERVAL = 300` seconds
have elapsed since its recorded notification; and two qualifying signals
for one symbol less than 300 s apart (both sends succeeding at the sink)
result in exactly one dispatched notification: the first send returns
true, the second is suppressed. -/
theorem C3_notification_cooldown (signal : TradingSignal)
    (last : List (String × ℤ)) (t0 t1 : ℤ)
    (habsent : last.lookup signal.symbol = none)
    (hclose : t1 - t0 < MIN_NOTIFICATION_INTERVAL) :
    (∀ (rec : List (String × ℤ)) (symbol : String) (now : ℤ),
        can_send_notification rec symbol now = true ↔
          (rec.lookup symbol = none ∨
            ∃ t, rec.lookup symbol = some t ∧
              MIN_NOTIFICATION_INTERVAL ≤ now - t)) ∧
    (send_signal last signal t0 true).1 = true ∧
    (send_signal (send_signal last signal t0 true).2 signal t1 true).1
      = false := by
  refine ⟨?_, ?_, ?_⟩
  · intro rec symbol now
    unfold can_send_notification
    cases h : rec.lookup symbol <;> simp [h]
  · simp [send_signal, can_send_notification, habsent]
  · have h1 : send_signal last signal t0 true =
        (true, recordNotification last signal.symbol t0) := by
      simp [send_signal, can_send_notification, habsent]
    rw [h1]
    have h2 : (recordNotification last signal.symbol t0).lookup
        signal.symbol = some t0 := by
      simp [recordNotification, List.lookup]
    have h3 : can_send_notification
        (recordNotification last signal.symbol t0) signal.symbol t1
        = false := by
      simp [can_send_notification, h2, MIN_NOTIFICATION_INTERVAL]
      simp only [MIN_NOTIFICATION_INTERVAL] at hclose
      omega
    simp [send_signal, h3]

/-- Witness for C3: fresh notifier state, sends at 0 s and 100 s. -/
theorem C3_notification_cooldown_witness :
    (([] : List (String × ℤ)).lookup "BTCUSDT" = none ∧
      (100 : ℤ) - 0 < MIN_NOTIFICATION_INTERVAL) ∧
    ((∀ (rec : List (String × ℤ)) (symbol : String) (now : ℤ),
        can_send_notification rec symbol now = true ↔
          (rec.lookup symbol = none ∨
            ∃ t, rec.lookup symbol = some t ∧
              MIN_NOTIFICATION_INTERVAL ≤ now - t)) ∧
      (send_signal []
        ⟨"BTCUSDT", 1, 1, none, none, "LONG", 8 / 10, []⟩ 0 true).1 = true ∧
      (send_signal
        (send_signal []
          ⟨"BTCUSDT", 1, 1, none, none, "LONG", 8 / 10, []⟩ 0 true).2
        ⟨"BTCUSDT", 1, 1, none, none, "LONG", 8 / 10, []⟩ 100 true).1
        = false) :=
  ⟨⟨rfl, by decide⟩,
    C3_notification_cooldown
      ⟨"BTCUSDT", 1, 1, none, none, "LONG", 8 / 10, []⟩ [] 0 100 rfl
      (by decide)⟩

/-- C4 counterexample: after four consecutive failures (sleeps 60, 120,
180, 240) the 5th failure makes the supervisor terminate — it does not
sleep `min(300, 60×5) = 300` as the claim states, and there is never a
6th failure. -/
theorem C4_backoff_counterexample :
    reconnectStep 4 = SupervisorStep.terminated ∧
    SupervisorStep.terminated ≠ SupervisorStep.sleepThenRetry 300 ∧
    reconnectTrace 5 = ([60, 120, 180, 240], true) ∧
    ([60, 120, 180, 240], true) ≠ (([60, 120, 180, 240, 300], false) :
      List Nat × Bool) := by
  refine ⟨rfl, by decide, by decide, by decide⟩

/-- C4 amended: with `baseSeconds=60, cap=300, max_retries=5`, consecutive
failure counts 1, 2, 3 and 4 produce backoff sleeps
`min(300, 60×count)` = 60, 120, 180 and 240 seconds, and the 5th
consecutive failure transitions the loop to TERMINATED (the 300 s cap is
never reached). -/
theorem C4_backoff_amended (k : Nat) (hk : k + 1 < 5) :
    reconnectTrace 4 = ([60, 120, 180, 240], false) ∧
    reconnectTrace 5 = ([60, 120, 180, 240], true) ∧
    reconnectStep k = SupervisorStep.sleepThenRetry (min 300 (60 * (k + 1)))
    := by
  refine ⟨by decide, by decide, ?_⟩
  simp [reconnectStep, hk]

/-- Witness for C4 amended at failure count 3 (counter value 2). -/
theorem C4_backoff_amended_witness :
    2 + 1 < 5 ∧
    (reconnectTrace 4 = ([60, 120, 180, 240], false) ∧
      reconnectTrace 5 = ([60, 120, 180, 240], true) ∧
      reconnectStep 2 =
        SupervisorStep.sleepThenRetry (min 300 (60 * (2 + 1)))) :=
  ⟨by decide, C4_backoff_amended 2 (by decide)⟩

/-- C7 counterexample: a generated signal whose confidence is exactly 0.6
is not forwarded by the gate in `process_market_data` (the source tests
`confidence > 0.6`, strictly), contradicting the claim that it would be. -/
theorem C7_confidence_gate_counterexample :
    (⟨"BTCUSDT", 1, 1, none, none, "LONG", 6 / 10, []⟩ :
        TradingSignal).confidence = 6 / 10 ∧
    (process_market_data [] "BTCUSDT"
      (some ⟨"BTCUSDT", 1, 1, none, none, "LONG", 6 / 10, []⟩) 0).2
      = false := by
  constructor
  · rfl
  · simp [process_market_data]

/-- C7 amended: the gate in `process_market_data` forwards a signal to the
notifier exactly when a signal exists and its confidence is strictly
greater than 0.6; confidence exactly 0.6 is suppressed (the generator's
fixed 0.8 baseline always passes). -/
theorem C7_confidence_gate_amended (pairs : List (String × MarketState))
    (symbol : String) (signal : Option TradingSignal) (now : ℤ) :
    (process_market_data pairs symbol signal now).2 = true ↔
      ∃ s, signal = some s ∧ s.confidence > 6 / 10 := by
  cases signal with
  | none => simp [process_market_data]
  | some s =>
    by_cases h : s.confidence > 6 / 10 <;>
      simp [process_market_data, h]

/-- C8 counterexample: a first qualifying LONG signal (stop-loss 1)
creates the `MarketState` entry; a second qualifying signal for the same
symbol with stop-loss 2 leaves the stored entry unchanged at stop-loss 1
— the map is not updated with the new values as the claim states. -/
theorem C8_market_state_counterexample :
    ((process_market_data
        (process_market_data [] "BTCUSDT"
          (some ⟨"BTCUSDT", 1, 1, some 1, some 1, "LONG", 8 / 10, []⟩) 0).1
        "BTCUSDT"
        (some ⟨"BTCUSDT", 2, 2, some 2, some 2, "SHORT", 8 / 10, []⟩)
        5).1.lookup "BTCUSDT").map MarketState.stop_loss = some (some 1) ∧
    (⟨"BTCUSDT", 2, 2, some 2, some 2, "SHORT", 8 / 10, []⟩ :
        TradingSignal).stop_loss = some 2 ∧
    (some (some (1 : ℚ)) : Option (Option ℚ)) ≠ some (some 2) := by
  refine ⟨?_, rfl, by simp⟩
  have h8 : ((8 : ℚ) / 10 > 6 / 10) := by norm_num
  simp [process_market_data, h8, stateOfSignal, List.lookup]

/-- C8 amended: a `MarketState` entry is created the first time a symbol
produces a qualifying signal (confidence above the gate), populated from
that signal's values; when a later qualifying signal arrives for a symbol
already present, `monitored_pairs` is left entirely unchanged — the
existing entry is not updated. -/
theorem C8_market_state_amended (pairs : List (String × MarketState))
    (symbol : String) (s : TradingSignal) (now : ℤ)
    (hconf : s.confidence > 6 / 10) :
    (pairs.lookup symbol = none →
      (process_market_data pairs symbol (some s) now).1 =
        (symbol, stateOfSignal s now) :: pairs) ∧
    (∀ st, pairs.lookup symbol = some st →
      (process_market_data pairs symbol (some s) now).1 = pairs) := by
  constructor
  · intro habs
    simp [process_market_data, hconf, habs]
  · intro st hst
    simp [process_market_data, hconf, hst]

/-- Witness for C8 amended: first signal for a fresh symbol creates the
entry. -/
theorem C8_market_state_amended_witness :
    ((⟨"BTCUSDT", 1, 1, some 1, some 1, "LONG", 8 / 10, []⟩ :
        TradingSignal).confidence > 6 / 10) ∧
    (([] : List (String × MarketState)).lookup "BTCUSDT" = none →
      (process_market_data [] "BTCUSDT"
        (some ⟨"BTCUSDT", 1, 1, some 1, some 1, "LONG", 8 / 10, []⟩) 0).1 =
        ("BTCUSDT",
          stateOfSignal
            ⟨"BTCUSDT", 1, 1, some 1, some 1, "LONG", 8 / 10, []⟩ 0) :: []) :=
  ⟨by norm_num,
    (C8_market_state_amended [] "BTCUSDT"
      ⟨"BTCUSDT", 1, 1, some 1, some 1, "LONG", 8 / 10, []⟩ 0
      (by norm_num)).1⟩

/-- Characterization of the `check_updates` fold for an arbitrary
accumulator: the key set grows by the parsed rows' keys and the send log
by the rows whose key is absent from the previous cycle's set. -/
theorem checkUpdates_foldl (prev : Finset String) (sendOk : FeedRow → Bool)
    (rows : List (Option FeedRow)) :
    ∀ acc : Finset String × List (FeedRow × Bool),
      rows.foldl (checkUpdatesStep prev sendOk) acc =
        (acc.1 ∪ cycleKeys rows,
          acc.2 ++ (newRows prev rows).map (fun r => (r, sendOk r))) := by
  induction rows with
  | nil =>
    intro acc
    simp [cycleKeys, newRows, parsedRows]
  | cons hd tl ih =>
    intro acc
    cases hd with
    | none =>
      simp only [List.foldl_cons, checkUpdatesStep, ih]
      simp [cycleKeys, newRows, parsedRows]
    | some r =>
      by_cases hmem : entryKey r ∈ prev
      · simp only [List.foldl_cons, checkUpdatesStep, if_pos hmem, ih]
        simp [cycleKeys, newRows, parsedRows, hmem, Finset.insert_union]
      · simp only [List.foldl_cons, checkUpdatesStep, if_neg hmem, ih]
        simp [cycleKeys, newRows, parsedRows, hmem, Finset.insert_union]

/-- C5: in each cycle of the change detector a parsed row is forwarded
(classified new) exactly when its dedup key `coin + "_" + timestamp` is
absent from the previous cycle's key set; the stored key set is replaced
by the current cycle's keys (independently of the previous set, no
union); and re-running the detector on the same unchanged batch notifies
nothing the second time. -/
theorem C5_change_detector (prev : Finset String)
    (rows : List (Option FeedRow)) (sendOk sendOk2 : FeedRow → Bool) :
    ((check_updates prev rows sendOk).2 =
      (newRows prev rows).map (fun r => (r, sendOk r))) ∧
    ((check_updates prev rows sendOk).1 = cycleKeys rows) ∧
    ((check_updates (check_updates prev rows sendOk).1 rows sendOk2).2
      = []) := by
  have h := checkUpdates_foldl prev sendOk rows (∅, [])
  have h1 : (check_updates prev rows sendOk).1 = cycleKeys rows := by
    simp [check_updates, h]
  refine ⟨by simp [check_updates, h], h1, ?_⟩
  have h2 := checkUpdates_foldl (cycleKeys rows) sendOk2 rows (∅, [])
  have hnil : newRows (cycleKeys rows) rows = [] := by
    simp only [newRows, List.filter_eq_nil_iff]
    intro r hr
    simp [cycleKeys, List.mem_map_of_mem entryKey hr]
  rw [h1]
  simp [check_updates, h2, hnil]

/-- C10: the dedup key of every parsed row enters the current cycle's key
set no matter how the Telegram send turns out (the send result is
ignored), so a row whose send fails (here `sendOk r = false`) is still
recorded as processed and is not notified again in a later cycle whose
feed still contains it unchanged. -/
theorem C10_send_failure_not_retried (prev : Finset String)
    (rows rows2 : List (Option FeedRow))
    (sendOk sendOk2 sendOk3 : FeedRow → Bool) (r : FeedRow)
    (hr : some r ∈ rows) (hfail : sendOk r = false)
    (hr2 : some r ∈ rows2) :
    ((check_updates prev rows sendOk).1 =
      (check_updates prev rows sendOk2).1) ∧
    entryKey r ∈ (check_updates prev rows sendOk).1 ∧
    r ∉ ((check_updates (check_updates prev rows sendOk).1 rows2
      sendOk3).2.map Prod.fst) := by
  have hparsed : r ∈ parsedRows rows := by
    simp [parsedRows, List.mem_filterMap]
    exact hr
  have hkey : entryKey r ∈ cycleKeys rows := by
    simp only [cycleKeys, List.mem_toFinset]
    exact List.mem_map_of_mem entryKey hparsed
  have h := checkUpdates_foldl prev sendOk rows (∅, [])
  have hb := checkUpdates_foldl prev sendOk2 rows (∅, [])
  have h1 : (check_updates prev rows sendOk).1 = cycleKeys rows := by
    simp [check_updates, h]
  refine ⟨by simp [check_updates, h, hb], by rw [h1]; exact hkey, ?_⟩
  rw [h1]
  have h2 := checkUpdates_foldl (cycleKeys rows) sendOk3 rows2 (∅, [])
  simp only [check_updates, h2, List.nil_append]
  intro hcontra
  rcases List.mem_map.mp hcontra with ⟨p, hp, hpr⟩
  rcases List.mem_map.mp hp with ⟨x, hxnew, hpx⟩
  rw [← hpx] at hpr
  have hxr : x = r := hpr
  subst hxr
  simp only [newRows, List.mem_filter, decide_eq_true_eq] at hxnew
  exact hxnew.2 hkey

/-- Witness for C10: a single-row feed whose send fails; the key is
recorded and the identical row in the next cycle is not re-notified. -/
theorem C10_send_failure_not_retried_witness :
    (some (⟨"BTC", 5, 1, 1, 1, 1, 1, "12:00"⟩ : FeedRow) ∈
      [some (⟨"BTC", 5, 1, 1, 1, 1, 1, "12:00"⟩ : FeedRow)]) ∧
    ((fun _ : FeedRow => false) ⟨"BTC", 5, 1, 1, 1, 1, 1, "12:00"⟩
      = false) ∧
    (((check_updates ∅ [some ⟨"BTC", 5, 1, 1, 1, 1, 1, "12:00"⟩]
        (fun _ => false)).1 =
      (check_updates ∅ [some ⟨"BTC", 5, 1, 1, 1, 1, 1, "12:00"⟩]
        (fun _ => true)).1) ∧
    entryKey ⟨"BTC", 5, 1, 1, 1, 1, 1, "12:00"⟩ ∈
      (check_updates ∅ [some ⟨"BTC", 5, 1, 1, 1, 1, 1, "12:00"⟩]
        (fun _ => false)).1 ∧
    (⟨"BTC", 5, 1, 1, 1, 1, 1, "12:00"⟩ : FeedRow) ∉
      ((check_updates
        (check_updates ∅ [some ⟨"BTC", 5, 1, 1, 1, 1, 1, "12:00"⟩]
          (fun _ => false)).1
        [some ⟨"BTC", 5, 1, 1, 1, 1, 1, "12:00"⟩]
        (fun _ => true)).2.map Prod.fst)) :=
  ⟨List.mem_singleton.mpr rfl, rfl,
    C10_send_failure_not_retried ∅
      [some ⟨"BTC", 5, 1, 1, 1, 1, 1, "12:00"⟩]
      [some ⟨"BTC", 5, 1, 1, 1, 1, 1, "12:00"⟩]
      (fun _ => false) (fun _ => true) (fun _ => true)
      ⟨"BTC", 5, 1, 1, 1, 1, 1, "12:00"⟩
      (List.mem_singleton.mpr rfl) rfl (List.mem_singleton.mpr rfl)⟩

/-- Length of the defined tail of an EMA series. -/
theorem length_emaSeries (period : Nat) (xs : List ℚ) :
    (emaSeries period xs).length =
      if xs.length < period then 0 else xs.length - period + 1 := by
  unfold emaSeries
  split <;> simp [List.length_scanl]

/-- On inputs shorter than 34 the MACD line series has fewer than the 9
entries the signal line's EMA needs. -/
theorem macdSeries_length_lt (xs : List ℚ) (h : xs.length < 34) :
    (macdSeries xs).length < 9 := by
  simp only [macdSeries, List.length_zipWith, List.length_drop,
    length_emaSeries]
  split_ifs <;> omega

/-- The MACD signal line's most recent value is NaN on windows shorter
than 34 closes. -/
theorem macdSignalLast_none_of_short (xs : List ℚ) (h : xs.length < 34) :
    macdSignalLast xs = none := by
  have hlt := macdSeries_length_lt xs h
  simp [macdSignalLast, emaLast, emaSeries, hlt]

/-- The 10-candle window used to exhibit the short-window behaviour of
the indicator engine. -/
def smallWindow : List Candle :=
  List.replicate 10 ⟨2, 1, 1, 1⟩

/-- C6 counterexample: a 10-candle window (shorter than the 50-candle
minimum) makes `calculate_indicators` return a populated indicator
mapping — not the empty-dict insufficient-data marker — and that mapping
contains a non-finite value (`EMA_long` is NaN). -/
theorem C6_insufficient_data_counterexample :
    smallWindow.length < 50 ∧
    calculate_indicators ⟨fun _ => 0⟩ smallWindow ≠ none ∧
    (calculate_indicators ⟨fun _ => 0⟩ smallWindow).map
      IndicatorSet.EMA_long = some none := by
  have hlong : emaLast 50 (smallWindow.map Candle.close) = none := by
    unfold emaLast emaSeries
    rw [if_pos (by simp [smallWindow])]
    rfl
  exact ⟨by simp [smallWindow], by simp [calculate_indicators],
    by simp only [calculate_indicators, hlong]; rfl⟩

/-- C6 amended: for every candle window shorter than the 50-candle
minimum (the EMA-50 lookback), `calculate_indicators` returns a populated
indicator mapping containing non-finite (NaN) values rather than an
explicit insufficient-data result — the empty-dict marker arises only
from raised exceptions; and no signal is built from windows shorter than
34 candles (the MACD signal-line lookback, the longest decision-relevant
one), because every comparison against a NaN value is false. -/
theorem C6_short_window_amended (env : TalibEnv) (cs : List Candle)
    (symbol : String) (price : ℚ) (h50 : cs.length < 50) :
    ((calculate_indicators env cs).map IndicatorSet.complete
      = some false) ∧
    (cs.length < 34 →
      analyze_market symbol price (calculate_indicators env cs) = none) := by
  have hlen : (cs.map Candle.close).length < 50 := by simpa using h50
  have hlong : emaLast 50 (cs.map Candle.close) = none := by
    unfold emaLast emaSeries
    rw [if_pos hlen]
    rfl
  constructor
  · simp [calculate_indicators, IndicatorSet.complete, hlong]
  · intro h34
    have hms : macdSignalLast (cs.map Candle.close) = none :=
      macdSignalLast_none_of_short _ (by simpa using h34)
    simp [calculate_indicators, analyze_market, hms]

/-- Witness for C6 amended at the concrete 10-candle window. -/
theorem C6_short_window_amended_witness :
    smallWindow.length < 50 ∧
    smallWindow.length < 34 ∧
    (((calculate_indicators ⟨fun _ => 0⟩ smallWindow).map
        IndicatorSet.complete = some false) ∧
      (smallWindow.length < 34 →
        analyze_market "BTCUSDT" 1
          (calculate_indicators ⟨fun _ => 0⟩ smallWindow) = none)) :=
  ⟨by decide, by decide,
    C6_short_window_amended ⟨fun _ => 0⟩ smallWindow "BTCUSDT" 1
      (by decide)⟩

/-- A successful `checkMarketStep` extends the accumulator by exactly the
row's contribution. -/
theorem checkMarketStep_some (parseInt : String → Option ℤ)
    (acc cols acc2 : List String)
    (h : checkMarketStep parseInt acc cols = some acc2) :
    acc2 = acc ++ (rowProcessed parseInt cols).toList := by
  unfold checkMarketStep at h
  unfold rowProcessed
  by_cases hlen : 2 ≤ cols.length
  · rw [if_pos hlen] at h
    rw [if_pos hlen]
    cases hp : (cols.get? 1).bind parseInt with
    | none =>
      rw [hp] at h
      simp at h
    | some pings =>
      rw [hp] at h
      by_cases h4 : 4 ≤ pings
      · simp only [h4] at h ⊢
        simp at h
        simp [← h]
      · simp only [h4] at h ⊢
        simp [h4] at h
        simp [h4, ← h]
  · rw [if_neg hlen] at h
    rw [if_neg hlen]
    injection h with h
    simp [← h]

/-- A successful fold of `checkMarketStep` appends exactly the
contributions of the rows. -/
theorem checkMarket_foldlM (parseInt : String → Option ℤ)
    (rows : List (List String)) :
    ∀ acc out : List String,
      rows.foldlM (checkMarketStep parseInt) acc = some out →
      out = acc ++ rows.filterMap (rowProcessed parseInt) := by
  induction rows with
  | nil =>
    intro acc out h
    simp only [List.foldlM_nil] at h
    injection h with h
    simp [h]
  | cons hd tl ih =>
    intro acc out h
    rw [List.foldlM_cons] at h
    cases hstep : checkMarketStep parseInt acc hd with
    | none => rw [hstep] at h; cases h
    | some acc2 =>
      rw [hstep] at h
      simp only [Option.bind_eq_bind, Option.some_bind] at h
      have h2 := ih acc2 out h
      rw [checkMarketStep_some parseInt acc hd acc2 hstep] at h2
      rw [h2, List.filterMap_cons]
      cases hrp : rowProcessed parseInt hd <;> simp [hrp]

/-- C9: when a cycle of the feed-driven monitor completes, the symbols
handed to market processing (candle fetch, indicator analysis, signal
generation) are exactly those of the rows with at least two cells and a
parsed ping count of at least 4 — a row whose ping count parses below 4
contributes no processing for its symbol in that cycle. -/
theorem C9_ping_threshold (parseInt : String → Option ℤ)
    (rows : List (List String)) (out : List String)
    (h : check_market_updates parseInt rows = some out) :
    out = rows.filterMap (rowProcessed parseInt) ∧
    (∀ cols pings, (cols.get? 1).bind parseInt = some pings → pings < 4 →
      rowProcessed parseInt cols = none) := by
  refine ⟨by simpa using checkMarket_foldlM parseInt rows [] out h, ?_⟩
  intro cols pings hp hlt
  have h4 : ¬(4 ≤ pings) := by omega
  unfold rowProcessed
  split
  · rw [hp]
    simp [h4]
  · rfl

/-- Witness for C9: a feed with ping counts 5 and 2 processes only the
first row's symbol. -/
theorem C9_ping_threshold_witness :
    check_market_updates (fun s => if s = "5" then some 5 else some 2)
      [["BTC", "5"], ["ETH", "2"], ["X"]] = some ["BTCUSDT"] ∧
    ["BTCUSDT"] = [["BTC", "5"], ["ETH", "2"], ["X"]].filterMap
      (rowProcessed (fun s => if s = "5" then some 5 else some 2)) :=
  ⟨by decide,
    (C9_ping_threshold (fun s => if s = "5" then some 5 else some 2)
      [["BTC", "5"], ["ETH", "2"], ["X"]] ["BTCUSDT"] (by decide)).1⟩

end Crytobot
